import Mathlib

/-!
Shallow embedding of `src/app.py` (Email Summarizer / Replier agent).

The Python module builds an `EmailAgent` driving a browser, a redis cache and
an LLM chain.  External effects are modelled explicitly:

* the redis cache is an association list from key strings to stored summary
  records together with their expiry (redis `SET key value EX=n`); the
  pydantic `json()` / `parse_raw` round-trip at the cache boundary is the
  identity of this embedding, so cache values are `EmailSummary` records;
* the LLM chain (`prompt | llm | StrOutputParser()`) is an oracle
  `String → Except String String` from the rendered prompt text to the model
  completion, failing like an uncaught API exception;
* browser interactions (goto / find_element) are oracles that either return
  the extracted data or fail like an uncaught selenium exception;
* every method threads an explicit `AgentState`; `modelLog` records each
  prompt payload sent to the model and `writeLog` records each cache write,
  so "invoked exactly once" claims are statements about these logs.
-/

/-- Process environment: `os.getenv` reads a variable, absent gives `none`. -/
def Env : Type := String → Option String

/-- `os.getenv(key)`. -/
def getenv (env : Env) (key : String) : Option String := env key

/-- `REDIS_HOST = "localhost"` — a module constant; the environment argument
records that the source does not consult the environment for it. -/
def REDIS_HOST (_env : Env) : String := "localhost"

/-- `REDIS_PORT = 6379`. -/
def REDIS_PORT (_env : Env) : Nat := 6379

/-- `GROQ_MODEL = "mixtral-8x7b-32768"`. -/
def GROQ_MODEL (_env : Env) : String := "mixtral-8x7b-32768"

/-- `GROQ_API_KEY = os.getenv("GROQ_API_KEY")` — read from the environment,
with no default (unset gives `None`). -/
def GROQ_API_KEY (env : Env) : Option String := getenv env "GROQ_API_KEY"

/-- `CHROME_PROFILE_PATH = "C:/Users/shiva/AppData/Local/Google/Chrome/User Data/Profile 6"`. -/
def CHROME_PROFILE_PATH (_env : Env) : String :=
  "C:/Users/shiva/AppData/Local/Google/Chrome/User Data/Profile 6"

/-- Pydantic model `EmailSummary` of `app.py`. -/
structure EmailSummary where
  sender : String
  subject : String
  received_time : String
  summary : String
  original_content : String
  deriving DecidableEq

/-- A visible Gmail inbox row (`tr.zA`) with the attributes the agent reads:
the `class` attribute and the sub-element texts it extracts. -/
structure EmailRow where
  classAttr : String
  sender : String
  subject : String
  received_time : String
  id : String
  deriving DecidableEq

/-- The dict `{"id", "sender", "subject", "received_time"}` built per row by
`get_unread_emails`. -/
structure EmailStub where
  id : String
  sender : String
  subject : String
  received_time : String
  deriving DecidableEq

/-- The dict after `process_unread_emails` adds the `"content"` key. -/
structure EmailData where
  id : String
  sender : String
  subject : String
  received_time : String
  content : String
  deriving DecidableEq

/-- Agent plus external mutable state: the two instance attributes of
`EmailAgent`, the redis cache contents, and the two effect logs. -/
structure AgentState where
  current_email_id : Option String
  summaries : List EmailSummary
  cache : List (String × EmailSummary × Nat)
  modelLog : List String
  writeLog : List (String × EmailSummary × Nat)
  deriving DecidableEq

/-- `SUMMARY_PROMPT` rendered with its four slots filled, exactly as
`ChatPromptTemplate.from_template` renders the triple-quoted template. -/
def summaryPromptText (sender subject received_time content : String) : String :=
  "You are an expert email assistant. Summarize the following email in 3-4 bullet points.\n    \n    From: " ++
  sender ++ "\n    Subject: " ++ subject ++ "\n    Received: " ++ received_time ++
  "\n    \n    Email Content:\n    " ++ content ++ "\n    \n    Summary:\n    -"

/-- `REPLY_PROMPT` rendered with its five slots filled. -/
def replyPromptText (sender subject received_time content reply_instructions : String) : String :=
  "You are helping compose a professional email reply. The original email was:\n    \n    From: " ++
  sender ++ "\n    Subject: " ++ subject ++ "\n    Received: " ++ received_time ++
  "\n    \n    Original Content:\n    " ++ content ++
  "\n    \n    The user has provided these instructions for the reply:\n    " ++
  reply_instructions ++
  "\n    \n    Please compose a professional email response that addresses all points from the original email and incorporates the user\x27s instructions.\n    \n    Reply:\n    "

/-- `redis_client.get(key)`: first entry for the key, if any. -/
def redisGet (s : AgentState) (key : String) : Option EmailSummary :=
  (s.cache.find? (fun e => e.1 == key)).map (fun e => e.2.1)

/-- `redis_client.set(key, value, ex=ttl)`: overwrite the key and append the
write to the log. -/
def redisSet (s : AgentState) (key : String) (value : EmailSummary) (ttl : Nat) : AgentState :=
  { s with cache := (key, value, ttl) :: s.cache.filter (fun e => e.1 != key),
           writeLog := s.writeLog ++ [(key, value, ttl)] }

/-- `'zE' in elem.get_attribute('class')` — Gmail marks unread rows with the
`zE` class; Python `in` on strings is substring containment. -/
def isUnread (r : EmailRow) : Bool := decide (List.IsInfix "zE".data r.classAttr.data)

/-- The dict appended for one unread row. -/
def toStub (r : EmailRow) : EmailStub :=
  { id := r.id, sender := r.sender, subject := r.subject, received_time := r.received_time }

/-- The loop of `EmailAgent.get_unread_emails` over the visible rows: append
each unread row, `break` at the first row that is not unread. -/
def get_unread_emails : List EmailRow → List EmailStub
  | [] => []
  | elem :: rest =>
    if isUnread elem then toStub elem :: get_unread_emails rest
    else []

/-- `EmailAgent.summarize_email`: consult the cache under
`f"email_summary:{id}"`; on a hit return the cached record; on a miss send
the rendered summary prompt to the model chain, build the `EmailSummary`
from the same dict fields, and cache it with `ex=3600`. -/
def summarize_email (model : String → Except String String) (s : AgentState)
    (email_data : EmailData) : Except String EmailSummary × AgentState :=
  let cache_key := "email_summary:" ++ email_data.id
  match redisGet s cache_key with
  | some cached_summary => (Except.ok cached_summary, s)
  | none =>
    let p := summaryPromptText email_data.sender email_data.subject
      email_data.received_time email_data.content
    let s1 := { s with modelLog := s.modelLog ++ [p] }
    match model p with
    | Except.error e => (Except.error e, s1)
    | Except.ok summary =>
      let email_summary : EmailSummary :=
        { sender := email_data.sender, subject := email_data.subject,
          received_time := email_data.received_time, summary := summary,
          original_content := email_data.content }
      (Except.ok email_summary, redisSet s1 cache_key email_summary 3600)

/-- The external effects `process_unread_emails` drives: `navigate_to_gmail`
(browser.goto), the row scan of `get_unread_emails` (goto + find_elements),
the body extraction of `open_email`, and the LLM chain.  Each may raise. -/
structure Oracles where
  navigate : Except String Unit
  fetchRows : Except String (List EmailRow)
  openEmail : String → Except String String
  model : String → Except String String

/-- `EmailAgent.open_email`: sets `self.current_email_id` (before any browser
call, so the assignment survives a failure), then extracts the body text. -/
def open_email (oc : Oracles) (s : AgentState) (email_id : String) :
    Except String String × AgentState :=
  let s1 := { s with current_email_id := some email_id }
  (oc.openEmail email_id, s1)

/-- `email["content"] = content`: the per-row dict extended with the body
text that `open_email` extracted. -/
def withContent (email : EmailStub) (content : String) : EmailData :=
  { id := email.id, sender := email.sender, subject := email.subject,
    received_time := email.received_time, content := content }

/-- The `for email in unread_emails` loop body of `process_unread_emails`:
open the email, add `"content"`, summarize, append to `self.summaries`,
`mark_email_as_read` (a `pass`).  An exception aborts the whole loop. -/
def processLoop (oc : Oracles) (s : AgentState) : List EmailStub → Except String Unit × AgentState
  | [] => (Except.ok (), s)
  | email :: rest =>
    match open_email oc s email.id with
    | (Except.error e, s1) => (Except.error e, s1)
    | (Except.ok content, s1) =>
      match summarize_email oc.model s1 (withContent email content) with
      | (Except.error e, s2) => (Except.error e, s2)
      | (Except.ok summary, s2) =>
        processLoop oc { s2 with summaries := s2.summaries ++ [summary] } rest

/-- `EmailAgent.process_unread_emails`: navigate, scan the inbox rows with
the `get_unread_emails` loop, then run the per-email loop. -/
def process_unread_emails (oc : Oracles) (s : AgentState) : Except String Unit × AgentState :=
  match oc.navigate with
  | Except.error e => (Except.error e, s)
  | Except.ok _ =>
    match oc.fetchRows with
    | Except.error e => (Except.error e, s)
    | Except.ok rows => processLoop oc s (get_unread_emails rows)

/-- `email_id.split('_')[0]` — the characters before the first underscore,
the whole string when it has none (only the head of the Python split is
ever used). -/
def splitHeadUnderscore (email_id : String) : String :=
  String.mk (email_id.data.takeWhile (fun c => c != '_'))

/-- `EmailAgent.compose_reply`: find the first stored summary whose sender
equals `email_id.split('_')[0]`; if none, return the in-band string; else
send the rendered reply prompt to the model chain. -/
def compose_reply (model : String → Except String String) (s : AgentState)
    (email_id reply_instructions : String) : Except String String × AgentState :=
  let original_summary :=
    s.summaries.find? (fun t => t.sender == splitHeadUnderscore email_id)
  match original_summary with
  | none => (Except.ok "Original email not found", s)
  | some os =>
    let p := replyPromptText os.sender os.subject os.received_time
      os.original_content reply_instructions
    let s1 := { s with modelLog := s.modelLog ++ [p] }
    (model p, s1)

/-- `EmailAgent.send_reply`: the prototype performs no browser action and
returns `True` unconditionally. -/
def send_reply (s : AgentState) (_email_id _reply_content : String) : Bool × AgentState :=
  (true, s)

/-- One pipeline step fails on stub `em` in state `s1` with error `e`: either
opening the email raises, or (it yields a body and) summarizing raises. -/
def failsAt (oc : Oracles) (s1 : AgentState) (em : EmailStub) (e : String) : Prop :=
  oc.openEmail em.id = Except.error e ∨
  ∃ content, oc.openEmail em.id = Except.ok content ∧
    (summarize_email oc.model { s1 with current_email_id := some em.id }
      (withContent em content)).1 = Except.error e

/-- The record `EmailSummary(...)` that `summarize_email` builds on a cache
miss from the input dict and the model completion `out`. -/
def mkSummary (M : EmailData) (out : String) : EmailSummary :=
  { sender := M.sender, subject := M.subject, received_time := M.received_time,
    summary := out, original_content := M.content }

/-- Fresh agent right after `EmailAgent.__init__` with an empty cache. -/
def emptyState : AgentState :=
  { current_email_id := none, summaries := [], cache := [], modelLog := [],
    writeLog := [] }

/-- A mocked model chain echoing the prompt payload back as the completion. -/
def mEcho : String → Except String String := fun p => Except.ok p

/-- A stored summary from sender `alice`. -/
def sumAlice1 : EmailSummary :=
  { sender := "alice", subject := "Subject one", received_time := "t1",
    summary := "sum1", original_content := "body one" }

/-- A second stored summary from the same sender `alice`. -/
def sumAlice2 : EmailSummary :=
  { sender := "alice", subject := "Subject two", received_time := "t2",
    summary := "sum2", original_content := "body two" }

/-- A stored summary from sender `bob`. -/
def sumBob : EmailSummary :=
  { sender := "bob", subject := "Invoice", received_time := "t3",
    summary := "sum3", original_content := "body three" }

/-- Agent state holding the two `alice` summaries in one order. -/
def stateA : AgentState := { emptyState with summaries := [sumAlice1, sumAlice2] }

/-- The same two `alice` summaries in the other order. -/
def stateB : AgentState := { emptyState with summaries := [sumAlice2, sumAlice1] }

/-- A state where `sumAlice1` is preceded by an unrelated `bob` summary. -/
def stateC : AgentState := { emptyState with summaries := [sumBob, sumAlice1] }

/-- A state whose summaries are exactly `[sumAlice1]`. -/
def stateD : AgentState := { emptyState with summaries := [sumAlice1] }

/-- A concrete incoming message with identifier `42`. -/
def mail42 : EmailData :=
  { id := "42", sender := "carol", subject := "Hello", received_time := "t42",
    content := "Lunch at noon" }

/-- A summary record already cached for identifier `42`. -/
def cached42 : EmailSummary :=
  { sender := "carol", subject := "Hello", received_time := "t42",
    summary := "cached summary", original_content := "Lunch at noon" }

/-- A state whose cache is pre-populated for message id `42`. -/
def statePre42 : AgentState :=
  { emptyState with cache := [("email_summary:42", cached42, 3600)] }

/-- An environment that does configure a cache host, port and TTL. -/
def env0 : Env := fun k =>
  if k = "REDIS_HOST" then some "cache9.example"
  else if k = "REDIS_PORT" then some "7000"
  else if k = "CACHE_TTL" then some "60" else none

/-- A concrete unread inbox row. -/
def row1 : EmailRow :=
  { classAttr := "zA zE", sender := "dan", subject := "Hi", received_time := "t7",
    id := "m7" }

/-- Oracles where the browser lists one unread row and then fails to extract
its body. -/
def ocFail : Oracles :=
  { navigate := Except.ok (), fetchRows := Except.ok [row1],
    openEmail := fun _ => Except.error "boom", model := mEcho }

/-- C3. `get_unread_emails` returns exactly the stubs of the maximal prefix of
rows carrying the unread marker: it stops at the first row lacking the `zE`
class, so any row after a read row is never returned. -/
theorem get_unread_emails_takeWhile (rows : List EmailRow) :
    get_unread_emails rows = (rows.takeWhile isUnread).map toStub := by
  induction rows with
  | nil => rfl
  | cons elem rest ih =>
    by_cases h : isUnread elem
    · simp [get_unread_emails, List.takeWhile, h, ih]
    · simp [get_unread_emails, List.takeWhile, h]

/-- C1. When the cache holds a summary under `email_summary:<id>`,
`summarize_email` returns that cached summary and leaves the state intact:
no prompt is sent to the model chain and no cache write happens. -/
theorem summarize_email_cache_hit (model : String → Except String String)
    (s : AgentState) (M : EmailData) (S : EmailSummary)
    (h : redisGet s ("email_summary:" ++ M.id) = some S) :
    summarize_email model s M = (Except.ok S, s) ∧
    (summarize_email model s M).2.modelLog = s.modelLog ∧
    (summarize_email model s M).2.writeLog = s.writeLog := by
  simp [summarize_email, h]

/-- Witness for C1 on the pre-populated cache for message id `42`. -/
theorem summarize_email_cache_hit_witness :
    summarize_email mEcho statePre42 mail42 = (Except.ok cached42, statePre42) :=
  (summarize_email_cache_hit mEcho statePre42 mail42 cached42 (by decide)).1

/-- C2. On a cache miss, `summarize_email` sends exactly one prompt to the
model chain and performs exactly one cache write, under the key
`email_summary:<id>` with expiry 3600, storing the summary built from the
same message fields; afterwards the cache maps that key to it. -/
theorem summarize_email_cache_miss (model : String → Except String String)
    (s : AgentState) (M : EmailData) (out : String)
    (h : redisGet s ("email_summary:" ++ M.id) = none)
    (hm : model (summaryPromptText M.sender M.subject M.received_time M.content) =
      Except.ok out) :
    (summarize_email model s M).1 = Except.ok (mkSummary M out) ∧
    (summarize_email model s M).2.modelLog =
      s.modelLog ++ [summaryPromptText M.sender M.subject M.received_time M.content] ∧
    (summarize_email model s M).2.writeLog =
      s.writeLog ++ [("email_summary:" ++ M.id, mkSummary M out, 3600)] ∧
    redisGet (summarize_email model s M).2 ("email_summary:" ++ M.id) =
      some (mkSummary M out) := by
  simp only [summarize_email, h, hm]
  refine ⟨rfl, rfl, by simp [mkSummary, redisSet], ?_⟩
  simp [redisGet, redisSet, mkSummary, List.find?]

/-- Witness for C2 on a fresh agent and the echo model. -/
theorem summarize_email_cache_miss_witness :
    (summarize_email mEcho emptyState mail42).2.writeLog =
      [("email_summary:42",
        mkSummary mail42 (summaryPromptText "carol" "Hello" "t42" "Lunch at noon"),
        3600)] := by
  have h := summarize_email_cache_miss mEcho emptyState mail42
    (summaryPromptText "carol" "Hello" "t42" "Lunch at noon") (by decide) rfl
  simpa [emptyState, mail42] using h.2.2.1

/-- C8. When no stored summary has the sender written before the first
underscore of the identifier, `compose_reply` returns the in-band string
`Original email not found` as a normal value and changes nothing: the model
chain is not invoked and no exception is signalled. -/
theorem compose_reply_not_found (model : String → Except String String)
    (s : AgentState) (email_id reply_instructions : String)
    (h : ∀ t ∈ s.summaries, t.sender ≠ splitHeadUnderscore email_id) :
    compose_reply model s email_id reply_instructions =
      (Except.ok "Original email not found", s) := by
  have hfind : s.summaries.find? (fun t => t.sender == splitHeadUnderscore email_id) = none := by
    rw [List.find?_eq_none]
    intro t ht
    simpa using h t ht
  simp [compose_reply, hfind]

/-- Witness for C8: sender prefix `zed` matches none of the stored senders. -/
theorem compose_reply_not_found_witness :
    compose_reply mEcho stateC "zed_4" "Say thanks" =
      (Except.ok "Original email not found", stateC) :=
  compose_reply_not_found mEcho stateC "zed_4" "Say thanks" (by decide)

/-- C9. `send_reply` returns `True` for every identifier and content and
performs no state change: it can never report failure. -/
theorem send_reply_always_true (s : AgentState) (email_id reply_content : String) :
    send_reply s email_id reply_content = (true, s) := rfl

/-- C10. `compose_reply` is read-only on the agent state: the stored
summaries, the current email identifier, the cache contents and the cache
write log are unchanged by any call (only the model log may grow). -/
theorem compose_reply_frame (model : String → Except String String)
    (s : AgentState) (email_id reply_instructions : String) :
    (compose_reply model s email_id reply_instructions).2.summaries = s.summaries ∧
    (compose_reply model s email_id reply_instructions).2.current_email_id =
      s.current_email_id ∧
    (compose_reply model s email_id reply_instructions).2.cache = s.cache ∧
    (compose_reply model s email_id reply_instructions).2.writeLog = s.writeLog := by
  unfold compose_reply
  cases hfind : s.summaries.find? (fun t => t.sender == splitHeadUnderscore email_id) <;>
    simp [hfind]

/-- C4 counterexample: two calls of `compose_reply` with the identical email
identifier `alice_0` and identical reply instructions, against two states
whose stored summaries are permutations of each other, send different prompt
payloads to the model chain and return different replies: the output varies
with the order of the stored summaries. -/
theorem compose_reply_order_sensitive :
    stateA.summaries.Perm stateB.summaries ∧
    (compose_reply mEcho stateA "alice_0" "Say thanks").2.modelLog ≠
      (compose_reply mEcho stateB "alice_0" "Say thanks").2.modelLog ∧
    (compose_reply mEcho stateA "alice_0" "Say thanks").1.toOption ≠
      (compose_reply mEcho stateB "alice_0" "Say thanks").1.toOption := by
  refine ⟨?_, by decide, by decide⟩
  show List.Perm [sumAlice1, sumAlice2] [sumAlice2, sumAlice1]
  exact List.Perm.swap _ _ _

/-- C4 amended: `compose_reply` is a function of the summary the lookup
resolves and the instructions alone — any two states in which the first
stored summary whose sender equals the identifier text before the first
underscore is the same record yield the same reply and append the same
prompt payload to the model log, whatever the other summaries are. -/
theorem compose_reply_determined_by_match (model : String → Except String String)
    (s t : AgentState) (email_id reply_instructions : String) (os : EmailSummary)
    (hs : s.summaries.find? (fun u => u.sender == splitHeadUnderscore email_id) = some os)
    (ht : t.summaries.find? (fun u => u.sender == splitHeadUnderscore email_id) = some os) :
    (compose_reply model s email_id reply_instructions).1 =
      (compose_reply model t email_id reply_instructions).1 ∧
    (compose_reply model s email_id reply_instructions).2.modelLog.drop s.modelLog.length =
      (compose_reply model t email_id reply_instructions).2.modelLog.drop t.modelLog.length := by
  have h1 : compose_reply model s email_id reply_instructions =
      (model (replyPromptText os.sender os.subject os.received_time
          os.original_content reply_instructions),
        { s with modelLog := s.modelLog ++ [replyPromptText os.sender os.subject
            os.received_time os.original_content reply_instructions] }) := by
    simp [compose_reply, hs]
  have h2 : compose_reply model t email_id reply_instructions =
      (model (replyPromptText os.sender os.subject os.received_time
          os.original_content reply_instructions),
        { t with modelLog := t.modelLog ++ [replyPromptText os.sender os.subject
            os.received_time os.original_content reply_instructions] }) := by
    simp [compose_reply, ht]
  rw [h1, h2]
  exact ⟨rfl, by simp [List.drop_left]⟩

/-- Witness for the amended C4: a lone `alice` summary and the same summary
behind an unrelated `bob` one resolve alike, so the replies agree. -/
theorem compose_reply_determined_by_match_witness :
    (compose_reply mEcho stateD "alice_9" "ok").1 =
      (compose_reply mEcho stateC "alice_9" "ok").1 :=
  (compose_reply_determined_by_match mEcho stateD stateC "alice_9" "ok" sumAlice1
    (by decide) (by decide)).1

/-- Any write `summarize_email` performs goes to the key derived from the
input identifier and stores the record built from that same input's fields. -/
theorem summarize_email_writeLog_cases (model : String → Except String String)
    (s : AgentState) (M : EmailData) :
    (summarize_email model s M).2.writeLog = s.writeLog ∨
    ∃ out, (summarize_email model s M).2.writeLog =
      s.writeLog ++ [("email_summary:" ++ M.id, mkSummary M out, 3600)] := by
  cases hget : redisGet s ("email_summary:" ++ M.id) with
  | some c => simp [summarize_email, hget]
  | none =>
    cases hm : model (summaryPromptText M.sender M.subject M.received_time M.content) with
    | error e => simp [summarize_email, hget, hm]
    | ok out =>
      exact Or.inr ⟨out, by simp [summarize_email, hget, hm, redisSet, mkSummary]⟩

/-- C5. Every cache write of the agent is uncontaminated: `summarize_email`
writes at most once, always under `email_summary:<id>` of its own input and
always the record built from that input's fields, while `compose_reply` and
`send_reply` never write the cache. -/
theorem cache_write_no_contamination (model : String → Except String String)
    (s : AgentState) (M : EmailData)
    (email_id reply_instructions reply_content : String) :
    ((summarize_email model s M).2.writeLog = s.writeLog ∨
      ∃ out, (summarize_email model s M).2.writeLog =
        s.writeLog ++ [("email_summary:" ++ M.id, mkSummary M out, 3600)]) ∧
    (compose_reply model s email_id reply_instructions).2.writeLog = s.writeLog ∧
    (send_reply s email_id reply_content).2.writeLog = s.writeLog := by
  refine ⟨summarize_email_writeLog_cases model s M, ?_, rfl⟩
  cases hfind : s.summaries.find? (fun t => t.sender == splitHeadUnderscore email_id) <;>
    simp [compose_reply, hfind]

/-- C7 counterexample: against an environment that does set a cache host,
port and TTL, the module constants still yield their hard-coded values, the
API key has no default when the environment is empty, and a cache-miss write
still uses expiry 3600 rather than the environment TTL of 60. -/
theorem config_not_from_environment :
    env0 "REDIS_HOST" = some "cache9.example" ∧
    REDIS_HOST env0 = "localhost" ∧
    REDIS_HOST env0 ≠ "cache9.example" ∧
    REDIS_PORT env0 ≠ 7000 ∧
    GROQ_API_KEY (fun _ => none) = none ∧
    (summarize_email mEcho emptyState mail42).2.writeLog.map (fun w => w.2.2) = [3600] ∧
    (60 : Nat) ∉ (summarize_email mEcho emptyState mail42).2.writeLog.map (fun w => w.2.2) := by
  exact ⟨rfl, rfl, by decide, by decide, rfl, by decide, by decide⟩

/-- C7 amended: only the API key is read from the environment, and it has no
default; the cache host and port, model name and browser profile path are
hard-coded constants the environment cannot move, and every cache write uses
the fixed expiry 3600 seconds. -/
theorem config_constants_fixed (env : Env) :
    REDIS_HOST env = "localhost" ∧ REDIS_PORT env = 6379 ∧
    GROQ_MODEL env = "mixtral-8x7b-32768" ∧
    CHROME_PROFILE_PATH env =
      "C:/Users/shiva/AppData/Local/Google/Chrome/User Data/Profile 6" ∧
    GROQ_API_KEY env = env "GROQ_API_KEY" ∧
    ∀ (model : String → Except String String) (s : AgentState) (M : EmailData),
      (summarize_email model s M).2.writeLog = s.writeLog ∨
      ∃ out, (summarize_email model s M).2.writeLog =
        s.writeLog ++ [("email_summary:" ++ M.id, mkSummary M out, 3600)] :=
  ⟨rfl, rfl, rfl, rfl, rfl, fun model s M => summarize_email_writeLog_cases model s M⟩

/-- `summarize_email` never touches the stored summaries list. -/
theorem summarize_email_keeps_summaries (model : String → Except String String)
    (s : AgentState) (M : EmailData) :
    (summarize_email model s M).2.summaries = s.summaries := by
  cases hget : redisGet s ("email_summary:" ++ M.id) with
  | some c => simp [summarize_email, hget]
  | none =>
    cases hm : model (summaryPromptText M.sender M.subject M.received_time M.content) with
    | error e => simp [summarize_email, hget, hm]
    | ok out => simp [summarize_email, hget, hm, redisSet]

/-- `summarize_email` sends at most one prompt to the model chain. -/
theorem summarize_email_modelLog_cases (model : String → Except String String)
    (s : AgentState) (M : EmailData) :
    (summarize_email model s M).2.modelLog = s.modelLog ∨
    ∃ p, (summarize_email model s M).2.modelLog = s.modelLog ++ [p] := by
  cases hget : redisGet s ("email_summary:" ++ M.id) with
  | some c => simp [summarize_email, hget]
  | none =>
    cases hm : model (summaryPromptText M.sender M.subject M.received_time M.content) with
    | error e =>
      exact Or.inr ⟨summaryPromptText M.sender M.subject M.received_time M.content,
        by simp [summarize_email, hget, hm]⟩
    | ok out =>
      exact Or.inr ⟨summaryPromptText M.sender M.subject M.received_time M.content,
        by simp [summarize_email, hget, hm, redisSet]⟩

/-- Running the loop over `pre ++ rest` first runs it over `pre`; when that
prefix completes cleanly the loop continues on `rest` from the state reached. -/
theorem processLoop_append (oc : Oracles) (pre : List EmailStub) :
    ∀ (s sMid : AgentState) (rest : List EmailStub),
      processLoop oc s pre = (Except.ok (), sMid) →
      processLoop oc s (pre ++ rest) = processLoop oc sMid rest := by
  induction pre with
  | nil =>
    intro s sMid rest h
    have h2 : s = sMid := by simpa [processLoop] using congrArg Prod.snd h
    subst h2
    rfl
  | cons email tail ih =>
    intro s sMid rest h
    cases hO : oc.openEmail email.id with
    | error e => simp [processLoop, open_email, hO] at h
    | ok content =>
      rcases hq : summarize_email oc.model { s with current_email_id := some email.id }
        (withContent email content) with ⟨r, s2⟩
      cases r with
      | error e => simp [processLoop, open_email, hO, hq] at h
      | ok summary =>
        have h2 : processLoop oc { s2 with summaries := s2.summaries ++ [summary] } tail =
            (Except.ok (), sMid) := by
          simpa [processLoop, open_email, hO, hq] using h
        calc processLoop oc s ((email :: tail) ++ rest)
            = processLoop oc { s2 with summaries := s2.summaries ++ [summary] } (tail ++ rest) := by
              simp [processLoop, open_email, hO, hq]
          _ = processLoop oc sMid rest := ih _ _ _ h2

/-- C6. If navigation, listing, opening a message or summarizing raises, the
exception propagates out of `process_unread_emails` unchanged and the run
stops there: the summaries gathered beyond the already completed prefix stay
absent and at most the single failing prompt is ever sent — no retry, no
checkpointing, no resumption. -/
theorem process_unread_emails_aborts (oc : Oracles) (s : AgentState) :
    (∀ e, oc.navigate = Except.error e →
      process_unread_emails oc s = (Except.error e, s)) ∧
    (∀ e, oc.navigate = Except.ok () → oc.fetchRows = Except.error e →
      process_unread_emails oc s = (Except.error e, s)) ∧
    (∀ rows pre em rest sMid e, oc.navigate = Except.ok () →
      oc.fetchRows = Except.ok rows →
      get_unread_emails rows = pre ++ em :: rest →
      processLoop oc s pre = (Except.ok (), sMid) →
      failsAt oc sMid em e →
      ∃ sEnd, process_unread_emails oc s = (Except.error e, sEnd) ∧
        sEnd.summaries = sMid.summaries ∧
        (sEnd.modelLog = sMid.modelLog ∨ ∃ p, sEnd.modelLog = sMid.modelLog ++ [p])) := by
  refine ⟨?_, ?_, ?_⟩
  · intro e hnav
    simp [process_unread_emails, hnav]
  · intro e hnav hfetch
    simp [process_unread_emails, hnav, hfetch]
  · intro rows pre em rest sMid e hnav hfetch hrows hpre hfail
    have hrun : process_unread_emails oc s = processLoop oc sMid (em :: rest) := by
      simp only [process_unread_emails, hnav, hfetch, hrows]
      exact processLoop_append oc pre s sMid (em :: rest) hpre
    rcases hfail with hO | ⟨content, hO, hS⟩
    · refine ⟨{ sMid with current_email_id := some em.id }, ?_, rfl, Or.inl rfl⟩
      rw [hrun]
      simp [processLoop, open_email, hO]
    · rcases hq : summarize_email oc.model { sMid with current_email_id := some em.id }
        (withContent em content) with ⟨r, s2⟩
      have hr : r = Except.error e := by rw [hq] at hS; simpa using hS
      subst hr
      refine ⟨s2, ?_, ?_, ?_⟩
      · rw [hrun]
        simp [processLoop, open_email, hO, hq]
      · have hk := summarize_email_keeps_summaries oc.model
          { sMid with current_email_id := some em.id } (withContent em content)
        rw [hq] at hk
        simpa using hk
      · have hk := summarize_email_modelLog_cases oc.model
          { sMid with current_email_id := some em.id } (withContent em content)
        rw [hq] at hk
        simpa using hk

/-- Witness for C6: one unread row whose body extraction raises `boom`; the
run aborts with that error before any summary is stored. -/
theorem process_unread_emails_aborts_witness :
    ∃ sEnd, process_unread_emails ocFail emptyState = (Except.error "boom", sEnd) ∧
      sEnd.summaries = emptyState.summaries ∧
      (sEnd.modelLog = emptyState.modelLog ∨
        ∃ p, sEnd.modelLog = emptyState.modelLog ++ [p]) :=
  (process_unread_emails_aborts ocFail emptyState).2.2 [row1] [] (toStub row1) []
    emptyState "boom" rfl rfl (by decide) rfl (Or.inl rfl)
